import Mathlib

/-!
Shallow embedding of `bme280pi/readout.py`: byte extraction, calibration
parsing, register protocol driver, compensation formulas and the read
pipeline, with theorems checking the specification's claims against them.

Python integers are unbounded, so they are modelled by `ℤ` (byte buffers by
`List ℕ`); Python's `<<` is multiplication by a power of two, `>>` is floor
division by a power of two, and `|`/`&` on negative operands follow infinite
two's complement, matched here by `Int.lor`/`Int.land`. Python `float`
arithmetic in the compensation formulas is modelled over `ℚ`.
-/

namespace BME280

/-- Python's `x << n` on unbounded integers: multiplication by `2 ^ n`. -/
def pyShl (x : ℤ) (n : ℕ) : ℤ := x * 2 ^ n

/-- Python's `x >> n` on unbounded integers: floor division by `2 ^ n`. -/
def pyShr (x : ℤ) (n : ℕ) : ℤ := Int.fdiv x (2 ^ n)

/-- `ctypes.c_short(x).value`: truncation of an integer to a signed 16-bit
two's-complement value in `[-32768, 32767]`. -/
def c_short (x : ℤ) : ℤ :=
  let m := x % 65536
  if 32768 ≤ m then m - 65536 else m

/-- `get_short(data, index)` from `readout.py`:
`c_short((data[index + 1] << 8) + data[index]).value`. -/
def get_short (data : List ℕ) (index : ℕ) : ℤ :=
  c_short (((data.getD (index + 1) 0) <<< 8 + data.getD index 0 : ℕ))

/-- `get_unsigned_short(data, index)` from `readout.py`:
`(data[index + 1] << 8) + data[index]`. -/
def get_unsigned_short (data : List ℕ) (index : ℕ) : ℤ :=
  ((data.getD (index + 1) 0) <<< 8 + data.getD index 0 : ℕ)

/-- `get_character(data, index)` from `readout.py`: the byte at `index`,
reduced by 256 when it exceeds 127 (two's-complement signed char). -/
def get_character (data : List ℕ) (index : ℕ) : ℤ :=
  let result : ℤ := data.getD index 0
  if result > 127 then result - 256 else result

/-- `get_unsigned_character(data, index)` from `readout.py`:
`data[index] & 0xFF`. -/
def get_unsigned_character (data : List ℕ) (index : ℕ) : ℤ :=
  ((data.getD index 0) &&& 0xFF : ℕ)

/-- The three calibration blocks `(cal1, cal2, cal3)` read from the device. -/
abbrev CalBlocks := List ℕ × List ℕ × List ℕ

/-- `get_modified(cal, i, function, shift)` from `readout.py`:
`dig = get_character(cal[2], i); dig = (dig << 24) >> 20;`
then `dig | (function(cal[2], 4) >> 4 & 0x0F)` when `shift` is set,
`dig | (function(cal[2], 4) & 0x0F)` otherwise. -/
def get_modified (cal : CalBlocks) (i : ℕ) (function : List ℕ → ℕ → ℤ)
    (shift : Bool := false) : ℤ :=
  let dig := get_character cal.2.2 i
  let dig := pyShr (pyShl dig 24) 20
  if shift then Int.lor dig (Int.land (pyShr (function cal.2.2 4) 4) 0x0F)
  else Int.lor dig (Int.land (function cal.2.2 4) 0x0F)

/-- `process_calibration_data(cal)` from `readout.py`: build `dig_t`
(3 entries from `cal[0]`), `dig_p` (9 entries from `cal[0]` at offsets
`6, 8, ..., 22`, the first unsigned, the rest signed) and `dig_h`
(6 entries from `cal[1]` and `cal[2]`, two of them via `get_modified`). -/
def process_calibration_data (cal : CalBlocks) :
    List ℤ × List ℤ × List ℤ :=
  let dig_t := [get_unsigned_short cal.1 0,
                get_short cal.1 2,
                get_short cal.1 4]
  let dig_p := (List.range' 6 9 2).map (fun i =>
    if i = 6 then get_unsigned_short cal.1 i else get_short cal.1 i)
  let dig_h := [get_unsigned_character cal.2.1 0,
                get_short cal.2.2 0,
                get_unsigned_character cal.2.2 2,
                get_modified cal 3 get_character,
                get_modified cal 5 get_unsigned_character true,
                get_character cal.2.2 6]
  (dig_t, dig_p, dig_h)

/-- `shift_read(values, i, j, k)` from `readout.py`:
`(values[i] << 12) | (values[j] << 4) | (values[k] >> 4)`. -/
def shift_read (values : List ℕ) (i j k : ℕ) : ℕ :=
  (values.getD i 0 <<< 12) ||| (values.getD j 0 <<< 4) ||| (values.getD k 0 >>> 4)

/-- `extract_raw_values(data)` from `readout.py`: raw pressure from bytes
0..2, raw temperature from bytes 3..5, raw humidity from bytes 6..7. -/
def extract_raw_values (data : List ℕ) : ℕ × ℕ × ℕ :=
  let raw_pressure := shift_read data 0 1 2
  let raw_temperature := shift_read data 3 4 5
  let raw_humidity := (data.getD 6 0 <<< 8) ||| data.getD 7 0
  (raw_pressure, raw_temperature, raw_humidity)

/-- `improve_temperature_measurement(temp_raw, dig_t)` from `readout.py`:
the Bosch fixed-point temperature compensation. Returns the temperature in
hundredths of a degree (an integer-valued Python float, modelled in `ℚ`)
together with the integer fine-temperature term. -/
def improve_temperature_measurement (temp_raw : ℤ) (dig_t : List ℤ) : ℚ × ℤ :=
  let var1 := pyShr ((pyShr temp_raw 3 - pyShl (dig_t.getD 0 0) 1) * dig_t.getD 1 0) 11
  let var2 := (pyShr temp_raw 4 - dig_t.getD 0 0) * (pyShr temp_raw 4 - dig_t.getD 0 0)
  let var3 := pyShr (pyShr var2 12 * dig_t.getD 2 0) 14
  let t_fine := var1 + var3
  let temperature : ℚ := ((pyShr (t_fine * 5 + 128) 8 : ℤ) : ℚ)
  (temperature, t_fine)

/-- The intermediate `var1` value computed by the first six statements of
`improve_pressure_measurement` in `readout.py` (the value tested against 0
by the guard). -/
def pressure_var1 (dig_p : List ℤ) (t_fine : ℚ) : ℚ :=
  let var1 := t_fine / 2 - 64000
  let var1 := ((dig_p.getD 2 0) * var1 * var1 / 524288 + (dig_p.getD 1 0) * var1) / 524288
  (1 + var1 / 32768) * (dig_p.getD 0 0)

/-- `improve_pressure_measurement(raw_pressure, dig_p, t_fine)` from
`readout.py`: the Bosch floating-point pressure compensation (modelled in
`ℚ`), with the `var1 == 0` guard returning pressure 0. -/
def improve_pressure_measurement (raw_pressure : ℚ) (dig_p : List ℤ)
    (t_fine : ℚ) : ℚ :=
  let var1 := t_fine / 2 - 64000
  let var2 := var1 * var1 * (dig_p.getD 5 0) / 32768
  let var2 := var2 + var1 * (dig_p.getD 4 0) * 2
  let var2 := var2 / 4 + (dig_p.getD 3 0) * 65536
  let var1 := ((dig_p.getD 2 0) * var1 * var1 / 524288 + (dig_p.getD 1 0) * var1) / 524288
  let var1 := (1 + var1 / 32768) * (dig_p.getD 0 0)
  if var1 = 0 then 0
  else
    let pressure := 1048576 - raw_pressure
    let pressure := (pressure - var2 / 4096) * 6250 / var1
    let var1 := (dig_p.getD 8 0) * pressure * pressure / 2147483648
    let var2 := pressure * (dig_p.getD 7 0) / 32768
    pressure + (var1 + var2 + (dig_p.getD 6 0)) / 16

/-- `improve_humidity_measurement(raw_humidity, dig_h, t_fine)` from
`readout.py`: the Bosch floating-point humidity compensation (modelled in
`ℚ`), clamped to `[0, 100]` by `max(0, min(humidity, 100))`. -/
def improve_humidity_measurement (raw_humidity : ℤ) (dig_h : List ℤ)
    (t_fine : ℚ) : ℚ :=
  let base_value := t_fine - 76800
  let term1 := (raw_humidity : ℚ) -
    ((dig_h.getD 3 0) * 64 + (dig_h.getD 4 0) / 16384 * base_value)
  let term2a := base_value * (1 + (dig_h.getD 2 0) / 67108864 * base_value)
  let term2 := (dig_h.getD 1 0) / 65536 * (1 + (dig_h.getD 5 0) / 67108864 * term2a)
  let humidity := term1 * term2
  let humidity := humidity * (1 - (dig_h.getD 0 0) * humidity / 524288)
  let humidity := max 0 (min humidity 100)
  humidity

/-- `extract_values(data, dig_t, dig_p, dig_h)` from `readout.py`:
raw extraction followed by temperature compensation (producing the fine
temperature), then pressure and humidity compensation. -/
def extract_values (data : List ℕ) (dig_t dig_p dig_h : List ℤ) :
    ℚ × ℚ × ℚ :=
  let raw := extract_raw_values data
  let tm := improve_temperature_measurement (raw.2.1 : ℤ) dig_t
  let pressure := improve_pressure_measurement (raw.1 : ℚ) dig_p ((tm.2 : ℤ) : ℚ)
  let humidity := improve_humidity_measurement (raw.2.2 : ℤ) dig_h ((tm.2 : ℤ) : ℚ)
  (tm.1, pressure, humidity)

/-- A Python error surfaced by the read pipeline: `TypeError` from
`validate_oversampling` or `KeyError` from a dictionary lookup. -/
inductive PyErr where
  | typeError (msg : String)
  | keyError (key : String)
deriving DecidableEq

/-- The `oversampling` argument of `read_sensor` / `validate_oversampling`:
Python `None`, a dictionary (modelled as an ordered key-value list), or any
non-dictionary value. -/
inductive OversamplingArg where
  | pyNone
  | dict (entries : List (String × ℕ))
  | nonDict
deriving DecidableEq

/-- One observable bus interaction of `read_raw_sensor`: a
`write_byte_data` call, a `read_i2c_block_data` call, or a `time.sleep`
(recorded with its duration in milliseconds). -/
inductive BusOp where
  | write (address reg value : ℕ)
  | read (address reg length : ℕ)
  | sleep (ms : ℚ)
deriving DecidableEq

/-- The bus collaborator: reads are answered by `read_i2c_block_data`
(address, register, length); writes return nothing. -/
structure Bus where
  read_i2c_block_data : ℕ → ℕ → ℕ → List ℕ

/-- A Python dictionary lookup `d[k]`: the stored value, or `KeyError`. -/
def dictGet (d : List (String × ℕ)) (k : String) : Except PyErr ℕ :=
  match d.lookup k with
  | some v => Except.ok v
  | none => Except.error (PyErr.keyError k)

/-- `validate_oversampling(oversampling)` from `readout.py`: `None` becomes
the default `{temperature: 2, pressure: 2, humidity: 2}`, a dictionary is
returned unchanged (its keys are not inspected), and anything else raises
`TypeError`. -/
def validate_oversampling (oversampling : OversamplingArg) :
    Except PyErr (List (String × ℕ)) :=
  match oversampling with
  | OversamplingArg.pyNone =>
      Except.ok [("temperature", 2), ("pressure", 2), ("humidity", 2)]
  | OversamplingArg.dict d => Except.ok d
  | OversamplingArg.nonDict =>
      Except.error (PyErr.typeError "oversampling must be a dictionary")

/-- `read_raw_sensor(bus, address, oversampling, reg_data)` from
`readout.py`, with the sequence of bus operations it performs recorded as a
trace (returned alongside the result, including on a `KeyError`, so that
claims about what I/O happened before a failure can be stated). Lookups and
bus calls occur in source order: the `humidity` lookup, the write to 0xF2,
the `temperature` then `pressure` lookups, the control write to 0xF4, the
three calibration reads, the sleep of
`2.4 + 2.3 * sum(oversampling.values())` milliseconds, and the data read. -/
def read_raw_sensor (bus : Bus) (address : ℕ)
    (oversampling : List (String × ℕ)) (reg_data : ℕ) :
    Except PyErr (CalBlocks × List ℕ) × List BusOp :=
  match dictGet oversampling "humidity" with
  | Except.error e => (Except.error e, [])
  | Except.ok h =>
    let trace := [BusOp.write address 0xF2 h]
    match dictGet oversampling "temperature" with
    | Except.error e => (Except.error e, trace)
    | Except.ok t =>
      match dictGet oversampling "pressure" with
      | Except.error e => (Except.error e, trace)
      | Except.ok p =>
        let control1 := t <<< 5
        let control := control1 ||| (p <<< 2) ||| 1
        let trace := trace ++ [BusOp.write address 0xF4 control]
        let cal1 := bus.read_i2c_block_data address 0x88 24
        let cal2 := bus.read_i2c_block_data address 0xA1 1
        let cal3 := bus.read_i2c_block_data address 0xE1 7
        let trace := trace ++ [BusOp.read address 0x88 24,
                               BusOp.read address 0xA1 1,
                               BusOp.read address 0xE1 7]
        let wait_time : ℚ := 2.4 + 2.3 * ((oversampling.map Prod.snd).sum : ℕ)
        let trace := trace ++ [BusOp.sleep wait_time]
        let data := bus.read_i2c_block_data address reg_data 8
        let trace := trace ++ [BusOp.read address reg_data 8]
        (Except.ok ((cal1, cal2, cal3), data), trace)

/-- `read_sensor(bus, address, reg_data, oversampling)` from `readout.py`:
validate the oversampling argument, read raw sensor data, process the
calibration data, extract the compensated values, and return
`{temperature: t/100, pressure: p/100, humidity: h}` (modelled as a triple
in that order), together with the trace of bus operations performed. -/
def read_sensor (bus : Bus) (address : ℕ) (reg_data : ℕ := 0xF7)
    (oversampling : OversamplingArg := OversamplingArg.pyNone) :
    Except PyErr (ℚ × ℚ × ℚ) × List BusOp :=
  match validate_oversampling oversampling with
  | Except.error e => (Except.error e, [])
  | Except.ok ovs =>
    match read_raw_sensor bus address ovs reg_data with
    | (Except.error e, trace) => (Except.error e, trace)
    | (Except.ok (cal, data), trace) =>
      let digs := process_calibration_data cal
      let v := extract_values data digs.1 digs.2.1 digs.2.2
      (Except.ok (v.1 / 100, v.2.1 / 100, v.2.2), trace)

/-- A concrete scripted bus answering every block read with zero bytes of
the requested length, used to instantiate bus-level theorems. -/
def testBus : Bus := ⟨fun _ _ length => List.replicate length 0⟩

/-- Coercion computation: `Int.land` of two natural numbers is `Nat.land`. -/
lemma int_land_coe (m n : ℕ) : Int.land (m : ℤ) (n : ℤ) = ((m &&& n : ℕ) : ℤ) := rfl

/-- Coercion computation: `pyShr` of a natural number is `Nat` division. -/
lemma pyShr_coe (m : ℕ) (k : ℕ) : pyShr (m : ℤ) k = ((m / 2 ^ k : ℕ) : ℤ) := by
  simp only [pyShr]
  rw [show ((2 : ℤ) ^ k) = ((2 ^ k : ℕ) : ℤ) by push_cast [Nat.cast_pow]; ring]
  rw [Int.ofNat_fdiv]

/-- Masking with `0x0F` is the identity on naturals below 16. -/
lemma land_fifteen_of_lt (n : ℕ) (h : n < 16) : Int.land (n : ℤ) 15 = (n : ℤ) := by
  have h15 : (15 : ℤ) = ((15 : ℕ) : ℤ) := rfl
  rw [h15, int_land_coe]
  have : n &&& 15 = n % 16 := Nat.and_pow_two_sub_one_eq_mod n 4
  rw [this, Nat.mod_eq_of_lt h]

/-- `get_unsigned_character` always yields a byte value below 256. -/
lemma get_unsigned_character_lt (data : List ℕ) (i : ℕ) :
    ∃ m : ℕ, m < 256 ∧ get_unsigned_character data i = (m : ℤ) := by
  refine ⟨data.getD i 0 &&& 255, ?_, rfl⟩
  have := Nat.and_le_right (n := data.getD i 0) (m := 255)
  omega

/-- Every entry of a list of bytes read with `getD` default 0 is below 256. -/
lemma getD_lt_256 : ∀ (l : List ℕ) (i : ℕ), (∀ x ∈ l, x < 256) → l.getD i 0 < 256
  | [], i, _ => by simp [List.getD]
  | a :: l, 0, h => h a (List.mem_cons_self a l)
  | a :: l, i + 1, h => getD_lt_256 l i (fun x hx => h x (List.mem_cons_of_mem a hx))

end BME280

/-- Claim C1: on the fixed calibration fixture
`cal1 = [96,110,203,104,50,0,29,145,59,215,208,11,232,38,42,255,249,255,172,38,10,216,189,16]`,
`cal2 = [75]`, `cal3 = [129,1,0,16,44,3,30]`, `process_calibration_data`
returns exactly `dig_t = [28256,26827,50]`,
`dig_p = [37149,-10437,3024,9960,-214,-7,9900,-10230,4285]` and
`dig_h = [75,385,0,268,50,30]`. -/
theorem claim_C1_process_calibration_fixture :
    BME280.process_calibration_data
      ([96,110,203,104,50,0,29,145,59,215,208,11,232,38,42,255,249,255,172,38,10,216,189,16],
       [75], [129,1,0,16,44,3,30]) =
      ([28256, 26827, 50],
       [37149, -10437, 3024, 9960, -214, -7, 9900, -10230, 4285],
       [75, 385, 0, 268, 50, 30]) := by
  decide

/-- Claim C2: for every `block3` (and any `block1`, `block2`), the humidity
coefficients of `process_calibration_data` satisfy: `dig_h[3]` is
`signed_8(block3, 3)` shifted left 24 then arithmetically right 20 bits,
bitwise-OR'd with the low nibble of `signed_8(block3, 4)`; and `dig_h[4]` is
`signed_8(block3, 5)` under the same shift transform, bitwise-OR'd with the
high nibble of `unsigned_8(block3, 4)` (that value shifted right 4 bits, with
no further mask needed). Proved for all byte lists, which covers the claim's
7-byte blocks with entries in 0..255. -/
theorem claim_C2_dig_h_nibble_fields (block1 block2 block3 : List ℕ) :
    ((BME280.process_calibration_data (block1, block2, block3)).2.2).getD 3 0 =
      Int.lor (BME280.pyShr (BME280.pyShl (BME280.get_character block3 3) 24) 20)
        (Int.land (BME280.get_character block3 4) 0x0F) ∧
    ((BME280.process_calibration_data (block1, block2, block3)).2.2).getD 4 0 =
      Int.lor (BME280.pyShr (BME280.pyShl (BME280.get_character block3 5) 24) 20)
        (BME280.pyShr (BME280.get_unsigned_character block3 4) 4) := by
  constructor
  · rfl
  · show Int.lor _ (Int.land (BME280.pyShr (BME280.get_unsigned_character block3 4) 4) 0x0F) = _
    obtain ⟨m, hm, he⟩ := BME280.get_unsigned_character_lt block3 4
    rw [he, BME280.pyShr_coe]
    rw [BME280.land_fifteen_of_lt (m / 2 ^ 4) (by omega)]

/-- Claim C3: for every raw temperature ADC value and every
`dig_t = [d0, d1, d2]`, `improve_temperature_measurement` returns the pair
`(temperature, t_fine)` with
`t_fine = ((((raw >> 3) - (d0 << 1)) * d1) >> 11)
        + ((((raw >> 4) - d0) * ((raw >> 4) - d0) >> 12) * d2 >> 14)`
(all shifts arithmetic over unbounded integers) and `temperature` the
integer-valued float `((t_fine * 5) + 128) >> 8`. -/
theorem claim_C3_temperature_formula (temp_raw d0 d1 d2 : ℤ) :
    BME280.improve_temperature_measurement temp_raw [d0, d1, d2] =
      (((BME280.pyShr
          ((BME280.pyShr ((BME280.pyShr temp_raw 3 - BME280.pyShl d0 1) * d1) 11 +
            BME280.pyShr
              (BME280.pyShr
                ((BME280.pyShr temp_raw 4 - d0) * (BME280.pyShr temp_raw 4 - d0)) 12 * d2)
              14) * 5 + 128) 8 : ℤ) : ℚ),
       BME280.pyShr ((BME280.pyShr temp_raw 3 - BME280.pyShl d0 1) * d1) 11 +
         BME280.pyShr
           (BME280.pyShr
             ((BME280.pyShr temp_raw 4 - d0) * (BME280.pyShr temp_raw 4 - d0)) 12 * d2)
           14) := rfl

/-- Claim C4: for every raw pressure, `dig_p` and `t_fine`, if the
intermediate `var1` computed by `improve_pressure_measurement` equals 0 the
function returns pressure 0 (a defined result): the division by `var1`
happens only on the branch where it is nonzero. -/
theorem claim_C4_pressure_var1_zero_guard (raw_pressure : ℚ) (dig_p : List ℤ)
    (t_fine : ℚ) (h : BME280.pressure_var1 dig_p t_fine = 0) :
    BME280.improve_pressure_measurement raw_pressure dig_p t_fine = 0 := by
  simp only [BME280.pressure_var1] at h
  simp only [BME280.improve_pressure_measurement]
  rw [if_pos h]

/-- Witness for claim C4: with `dig_p[0] = 0` (the spec's degenerate
calibration fixture) the computed `var1` is 0 and the returned pressure is
exactly 0. -/
theorem claim_C4_pressure_var1_zero_guard_witness :
    BME280.pressure_var1 [0, 6034, -2009, -3141, 8460, 523, -7938, 6421, -4430] 0 = 0 ∧
    BME280.improve_pressure_measurement 0
      [0, 6034, -2009, -3141, 8460, 523, -7938, 6421, -4430] 0 = 0 := by
  have h : BME280.pressure_var1
      [0, 6034, -2009, -3141, 8460, 523, -7938, 6421, -4430] 0 = 0 := by
    simp [BME280.pressure_var1]
  exact ⟨h, claim_C4_pressure_var1_zero_guard 0 _ 0 h⟩

/-- Claim C5: for every raw humidity, every `dig_h` and every `t_fine`, the
value returned by `improve_humidity_measurement` lies in `[0, 100]`: results
below 0 or above 100 are clamped, never reported as errors. -/
theorem claim_C5_humidity_clamped (raw_humidity : ℤ) (dig_h : List ℤ)
    (t_fine : ℚ) :
    0 ≤ BME280.improve_humidity_measurement raw_humidity dig_h t_fine ∧
      BME280.improve_humidity_measurement raw_humidity dig_h t_fine ≤ 100 := by
  simp only [BME280.improve_humidity_measurement]
  exact ⟨le_max_left 0 _, max_le (by norm_num) (min_le_right _ 100)⟩

/-- Claim C6: for every measurement block `data`,
`extract_raw_values` returns
`((data[0] << 12) | (data[1] << 4) | (data[2] >> 4),
  (data[3] << 12) | (data[4] << 4) | (data[5] >> 4),
  (data[6] << 8) | data[7])`.
Proved for all byte lists, which covers the claim's 8-byte blocks. -/
theorem claim_C6_extract_raw_values (data : List ℕ) :
    BME280.extract_raw_values data =
      ((data.getD 0 0 <<< 12) ||| (data.getD 1 0 <<< 4) ||| (data.getD 2 0 >>> 4),
       (data.getD 3 0 <<< 12) ||| (data.getD 4 0 <<< 4) ||| (data.getD 5 0 >>> 4),
       (data.getD 6 0 <<< 8) ||| data.getD 7 0) := rfl

/-- Claim C7: for every oversampling mapping containing the three required
keys, `read_raw_sensor` performs exactly this ordered sequence of bus
operations: write of the humidity oversampling to 0xF2; write of the control
byte `(temperature << 5) | (pressure << 2) | 1` to 0xF4; reads of 24 bytes
at 0x88, 1 byte at 0xA1 and 7 bytes at 0xE1, in that order; a sleep of
`2.4 + 2.3 * (sum of the oversampling values)` milliseconds; and a read of
8 bytes at `reg_data`. In particular the humidity write precedes the
control write. -/
theorem claim_C7_bus_operation_sequence (bus : BME280.Bus)
    (address reg_data : ℕ) (d : List (String × ℕ)) (h t p : ℕ)
    (hh : d.lookup "humidity" = some h)
    (ht : d.lookup "temperature" = some t)
    (hp : d.lookup "pressure" = some p) :
    (BME280.read_raw_sensor bus address d reg_data).2 =
      [BME280.BusOp.write address 0xF2 h,
       BME280.BusOp.write address 0xF4 ((t <<< 5) ||| (p <<< 2) ||| 1),
       BME280.BusOp.read address 0x88 24,
       BME280.BusOp.read address 0xA1 1,
       BME280.BusOp.read address 0xE1 7,
       BME280.BusOp.sleep (2.4 + 2.3 * (((d.map Prod.snd).sum : ℕ) : ℚ)),
       BME280.BusOp.read address reg_data 8] := by
  simp only [BME280.read_raw_sensor, BME280.dictGet, hh, ht, hp]
  rfl

/-- Witness for claim C7: on the default oversampling dictionary the trace
is the seven claimed operations with a sleep of `2.4 + 2.3 * 6` ms. -/
theorem claim_C7_bus_operation_sequence_witness :
    (BME280.read_raw_sensor BME280.testBus 0x76
        [("temperature", 2), ("pressure", 2), ("humidity", 2)] 0xF7).2 =
      [BME280.BusOp.write 0x76 0xF2 2,
       BME280.BusOp.write 0x76 0xF4 ((2 <<< 5) ||| (2 <<< 2) ||| 1),
       BME280.BusOp.read 0x76 0x88 24,
       BME280.BusOp.read 0x76 0xA1 1,
       BME280.BusOp.read 0x76 0xE1 7,
       BME280.BusOp.sleep (2.4 + 2.3 * ((((([("temperature", 2), ("pressure", 2),
           ("humidity", 2)] : List (String × ℕ)).map Prod.snd).sum : ℕ)) : ℚ)),
       BME280.BusOp.read 0x76 0xF7 8] :=
  claim_C7_bus_operation_sequence BME280.testBus 0x76 0xF7
    [("temperature", 2), ("pressure", 2), ("humidity", 2)] 2 2 2 rfl rfl rfl

/-- Claim C9: for every byte buffer and in-bounds index, `get_short` and
`get_unsigned_short` agree whenever the unsigned 16-bit value is at most
32767, and the signed value is exactly the unsigned value minus 65536
whenever the unsigned value exceeds 32767. -/
theorem claim_C9_signed_unsigned_relation (data : List ℕ) (i : ℕ)
    (hb : ∀ x ∈ data, x < 256) (hi : i + 1 < data.length) :
    (BME280.get_unsigned_short data i ≤ 32767 →
      BME280.get_short data i = BME280.get_unsigned_short data i) ∧
    (32767 < BME280.get_unsigned_short data i →
      BME280.get_short data i = BME280.get_unsigned_short data i - 65536) := by
  have h0 : data.getD i 0 < 256 := BME280.getD_lt_256 data i hb
  have h1 : data.getD (i + 1) 0 < 256 := BME280.getD_lt_256 data (i + 1) hb
  have hlt : ((data.getD (i + 1) 0) <<< 8 + data.getD i 0 : ℕ) < 65536 := by
    rw [Nat.shiftLeft_eq]
    omega
  have hu : BME280.get_unsigned_short data i
      = (((data.getD (i + 1) 0) <<< 8 + data.getD i 0 : ℕ) : ℤ) := rfl
  have hs : BME280.get_short data i
      = BME280.c_short (((data.getD (i + 1) 0) <<< 8 + data.getD i 0 : ℕ) : ℤ) := rfl
  rw [hu, hs]
  simp only [BME280.c_short]
  rw [Int.emod_eq_of_lt (by positivity) (by exact_mod_cast hlt)]
  constructor <;> intro hcase <;> split <;> omega

/-- Witness for claim C9: on `[52, 104]` the unsigned value 26676 is below
the threshold and the two extractors agree; on `[0, 128]` the unsigned
value 32768 exceeds it and the signed value is 32768 - 65536 = -32768. -/
theorem claim_C9_signed_unsigned_relation_witness :
    BME280.get_short [52, 104] 0 = BME280.get_unsigned_short [52, 104] 0 ∧
    BME280.get_short [0, 128] 0 = BME280.get_unsigned_short [0, 128] 0 - 65536 :=
  ⟨(claim_C9_signed_unsigned_relation [52, 104] 0 (by decide) (by decide)).1
      (by decide),
   (claim_C9_signed_unsigned_relation [0, 128] 0 (by decide) (by decide)).2
      (by decide)⟩

/-- Counterexample to claim C8: with the mapping
`{humidity: 2, pressure: 2}` (missing `temperature`), `read_sensor` does
fail with a key-not-found error, but only after the humidity oversampling
byte has been written to register 0xF2 — bus I/O is attempted before the
failure, contradicting the claim that a missing required key fails before
any bus I/O. -/
theorem claim_C8_counterexample :
    BME280.read_sensor BME280.testBus 0x76 0xF7
        (BME280.OversamplingArg.dict [("humidity", 2), ("pressure", 2)]) =
      (Except.error (BME280.PyErr.keyError "temperature"),
       [BME280.BusOp.write 0x76 0xF2 2]) := by
  rfl

/-- Amended claim C8: a non-mapping oversampling argument makes
`read_sensor` fail with a type error before any bus write; a mapping
missing `humidity` fails with a key-not-found error before any bus I/O; but
a mapping containing `humidity` while missing `temperature` or `pressure`
fails with a key-not-found error only after the humidity byte has been
written to register 0xF2. -/
theorem claim_C8_amended_failure_timing (bus : BME280.Bus)
    (address reg_data : ℕ) (d : List (String × ℕ)) (h t : ℕ) :
    BME280.read_sensor bus address reg_data BME280.OversamplingArg.nonDict =
      (Except.error (BME280.PyErr.typeError "oversampling must be a dictionary"),
       []) ∧
    (d.lookup "humidity" = none →
      BME280.read_sensor bus address reg_data (BME280.OversamplingArg.dict d) =
        (Except.error (BME280.PyErr.keyError "humidity"), [])) ∧
    (d.lookup "humidity" = some h → d.lookup "temperature" = none →
      BME280.read_sensor bus address reg_data (BME280.OversamplingArg.dict d) =
        (Except.error (BME280.PyErr.keyError "temperature"),
         [BME280.BusOp.write address 0xF2 h])) ∧
    (d.lookup "humidity" = some h → d.lookup "temperature" = some t →
      d.lookup "pressure" = none →
      BME280.read_sensor bus address reg_data (BME280.OversamplingArg.dict d) =
        (Except.error (BME280.PyErr.keyError "pressure"),
         [BME280.BusOp.write address 0xF2 h])) := by
  refine ⟨rfl, fun hh => ?_, fun hh ht => ?_, fun hh ht hp => ?_⟩
  · simp only [BME280.read_sensor, BME280.validate_oversampling,
      BME280.read_raw_sensor, BME280.dictGet, hh]
  · simp only [BME280.read_sensor, BME280.validate_oversampling,
      BME280.read_raw_sensor, BME280.dictGet, hh, ht]
  · simp only [BME280.read_sensor, BME280.validate_oversampling,
      BME280.read_raw_sensor, BME280.dictGet, hh, ht, hp]

/-- Witness for amended claim C8: an empty mapping fails on the `humidity`
lookup with an empty trace; `{humidity: 3, temperature: 1}` fails on the
`pressure` lookup after writing 3 to register 0xF2. -/
theorem claim_C8_amended_failure_timing_witness :
    BME280.read_sensor BME280.testBus 0x76 0xF7
        (BME280.OversamplingArg.dict []) =
      (Except.error (BME280.PyErr.keyError "humidity"), []) ∧
    BME280.read_sensor BME280.testBus 0x76 0xF7
        (BME280.OversamplingArg.dict [("humidity", 3), ("temperature", 1)]) =
      (Except.error (BME280.PyErr.keyError "pressure"),
       [BME280.BusOp.write 0x76 0xF2 3]) :=
  ⟨(claim_C8_amended_failure_timing BME280.testBus 0x76 0xF7 [] 0 0).2.1 rfl,
   (claim_C8_amended_failure_timing BME280.testBus 0x76 0xF7
      [("humidity", 3), ("temperature", 1)] 3 1).2.2.2 rfl rfl rfl⟩

/-- Claim C10: `validate_oversampling` returns any dictionary unchanged
without inspecting its keys (and `None` yields the default
`{temperature: 2, pressure: 2, humidity: 2}`); a missing required key
surfaces only at the corresponding lookup in `read_raw_sensor`, where a
missing `humidity` key fails before any bus operation, while a missing
`temperature` or `pressure` key fails only after the humidity byte has been
written to register 0xF2. -/
theorem claim_C10_validate_returns_unchanged (bus : BME280.Bus)
    (address reg_data : ℕ) (d : List (String × ℕ)) (h t : ℕ) :
    BME280.validate_oversampling (BME280.OversamplingArg.dict d) =
      Except.ok d ∧
    BME280.validate_oversampling BME280.OversamplingArg.pyNone =
      Except.ok [("temperature", 2), ("pressure", 2), ("humidity", 2)] ∧
    (d.lookup "humidity" = none →
      BME280.read_raw_sensor bus address d reg_data =
        (Except.error (BME280.PyErr.keyError "humidity"), [])) ∧
    (d.lookup "humidity" = some h → d.lookup "temperature" = none →
      BME280.read_raw_sensor bus address d reg_data =
        (Except.error (BME280.PyErr.keyError "temperature"),
         [BME280.BusOp.write address 0xF2 h])) ∧
    (d.lookup "humidity" = some h → d.lookup "temperature" = some t →
      d.lookup "pressure" = none →
      BME280.read_raw_sensor bus address d reg_data =
        (Except.error (BME280.PyErr.keyError "pressure"),
         [BME280.BusOp.write address 0xF2 h])) := by
  refine ⟨rfl, rfl, fun hh => ?_, fun hh ht => ?_, fun hh ht hp => ?_⟩ <;>
    simp only [BME280.read_raw_sensor, BME280.dictGet, hh]
  · simp only [ht]
  · simp only [ht, hp]

/-- Witness for claim C10: `{pressure: 7}` passes validation unchanged and
then fails the `humidity` lookup with no bus operation; `{humidity: 5}`
fails the `temperature` lookup after writing 5 to register 0xF2. -/
theorem claim_C10_validate_returns_unchanged_witness :
    BME280.validate_oversampling
        (BME280.OversamplingArg.dict [("pressure", 7)]) =
      Except.ok [("pressure", 7)] ∧
    BME280.read_raw_sensor BME280.testBus 0x77 [("pressure", 7)] 0xF7 =
      (Except.error (BME280.PyErr.keyError "humidity"), []) ∧
    BME280.read_raw_sensor BME280.testBus 0x77 [("humidity", 5)] 0xF7 =
      (Except.error (BME280.PyErr.keyError "temperature"),
       [BME280.BusOp.write 0x77 0xF2 5]) :=
  ⟨(claim_C10_validate_returns_unchanged BME280.testBus 0x77 0xF7
      [("pressure", 7)] 0 0).1,
   (claim_C10_validate_returns_unchanged BME280.testBus 0x77 0xF7
      [("pressure", 7)] 0 0).2.2.1 rfl,
   (claim_C10_validate_returns_unchanged BME280.testBus 0x77 0xF7
      [("humidity", 5)] 5 0).2.2.2.1 rfl rfl⟩
